import Mathlib

/-!
Shallow embedding of the client-side session/authentication lifecycle of the
influencer-shop frontend (`src/hooks/useAuth.tsx`, `src/lib/api.ts`) and of the
mock image-search endpoint (`POST /image` in the backend search router).

The file `useAuth.tsx` of the repository contains three concatenated near-duplicate
implementations of the auth store; definitions below are suffixed `V1`, `V2`,
`V3` for the first, second and third variant where they diverge.  Browser
`localStorage` / `sessionStorage` are modelled as association lists from keys
to stored values; `JSON.stringify` of a profile is modelled by the
`StorageVal.userJson` constructor (parsing it back succeeds and yields the
profile), while any other stored string (hosted-session artifacts, corrupt
cache entries) is modelled by `StorageVal.blob` (parsing it as a profile
fails).  Each `await`ed external call is an explicit environment field of type
`Except`/`Option`: `.error` models a rejected promise (a thrown exception),
in-band `Option`/error values mirror the `{ data, error }` results returned by
the hosted service client.
-/

namespace InfluShop

/-- `gender` field of a user profile: `male` or `female`. -/
inductive Gender where
  | male
  | female
deriving DecidableEq, Repr

/-- The `AuthUser` profile record of `useAuth.tsx` (lines 6-22). -/
structure AuthUser where
  id : String
  name : String
  email : String
  phone : Option String := none
  gender : Gender
  is_influencer : Bool
  avatar_url : Option String := none
  body_type : Option String := none
  style_preference : Option String := none
  color_season : Option String := none
  notes : Option String := none
  bio : Option String := none
  category : Option String := none
  created_at : String
  updated_at : String
deriving DecidableEq, Repr

/-- A hosted-session token pair (the `session` object of backend responses). -/
structure Session where
  access_token : String
  refresh_token : String
deriving DecidableEq, Repr

/-- A value held in `localStorage`/`sessionStorage`.  `userJson u` is the
`JSON.stringify` of profile `u` (so `JSON.parse` recovers `u`); `blob` is any
other string — a hosted-session artifact or a corrupt cache entry — whose
parse as a profile fails. -/
inductive StorageVal where
  | userJson (u : AuthUser)
  | blob
deriving DecidableEq, Repr

/-- A browser storage area: an association list from keys to values. -/
def Storage := List (String × StorageVal)

instance : DecidableEq Storage := inferInstanceAs (DecidableEq (List _))

/-- the getItem operation of a storage area. -/
def getItem : Storage → String → Option StorageVal
  | [], _ => none
  | kv :: rest, k => if kv.1 = k then some kv.2 else getItem rest k

/-- the removeItem operation of a storage area. -/
def removeItem (s : Storage) (k : String) : Storage :=
  s.filter (fun kv => decide (kv.1 ≠ k))

/-- the setItem operation of a storage area. -/
def setItem (s : Storage) (k : String) (v : StorageVal) : Storage :=
  (k, v) :: removeItem s k

/-- the `key.startsWith(sb-)` test of the purge loops in `logout`, taken on
the character list of the key (character-by-character, as the runtime does). -/
def startsWithSb : List Char → Bool
  | 's' :: 'b' :: '-' :: _ => true
  | _ => false

/-- `Object.keys(storage).forEach(key => { if (key.startsWith(sb-)) storage.removeItem(key) })` loop — the
hosted-session purge in `logout`. -/
def removeSbKeys (s : Storage) : Storage :=
  s.filter (fun kv => !(startsWithSb kv.1.data))

/-- the clear operation of a storage area. -/
def clearStorage (_s : Storage) : Storage := []

/-- Does the storage area still hold a key under the hosted-session
prefix `sb-`? -/
def hasSbKey (s : Storage) : Bool :=
  s.any (fun kv => startsWithSb kv.1.data)

/-- The reactive state of the auth store plus the two browser storage areas it
writes: `user`/`isLoading` are the `useState` cells, `isAuthenticated` is
derived (`!!user`). -/
structure AuthState where
  user : Option AuthUser
  isLoading : Bool
  localStorage : Storage
  sessionStorage : Storage
deriving DecidableEq

/-- `isAuthenticated = !!user` (line 59). -/
def isAuthenticated (st : AuthState) : Bool := st.user.isSome

/- ### The in-flight login promise cache (variant 1, lines 188-239)

`login` keeps the pending promise in `loginPromiseRef`: a call that finds the
ref non-null returns the cached promise without touching the network; a call
that finds it null issues the network request and installs a fresh promise
(the JS event loop runs this synchronous prefix atomically, so the request and
the ref installation cannot be interleaved with another call); the `finally`
block clears the ref when the promise settles.  Promises are identified by
numeric ids; `requests` counts `apiClient.login` network calls issued. -/

structure LoginMachine where
  ref : Option Nat
  requests : Nat
  nextId : Nat
deriving DecidableEq, Repr

def LoginMachine.init : LoginMachine := ⟨none, 0, 0⟩

/-- The synchronous prefix of one `login()` invocation: reuse the cached
in-flight promise if present (lines 189-191), otherwise issue the network
request and cache a fresh promise (lines 192-237).  Returns the machine and
the promise id handed to this caller. -/
def loginCall (m : LoginMachine) : LoginMachine × Nat :=
  match m.ref with
  | some p => (m, p)
  | none => (⟨some m.nextId, m.requests + 1, m.nextId + 1⟩, m.nextId)

/-- The `finally` handler of the cached promise: `loginPromiseRef.current =
null` once the login settles (line 232). -/
def loginSettle (m : LoginMachine) : LoginMachine := { m with ref := none }

/-- `n` further `login()` invocations, in order; returns the promise ids the
callers receive. -/
def loginCalls : LoginMachine → Nat → LoginMachine × List Nat
  | m, 0 => (m, [])
  | m, n + 1 =>
    let (m', p) := loginCall m
    let (m'', ps) := loginCalls m' n
    (m'', p :: ps)

/- ### login (variant 1, lines 188-239) -/

/-- Outcomes of the external calls `login` awaits.  `apiLogin` is
`apiClient.login({email, password})`: `.error m` a rejected promise with
message `m`, `.ok none` a response without a `user` field, `.ok (some u)` a
response carrying profile `u`.  `getSession` is the best-effort
`supabase.auth.getSession()` of lines 211-219 (its result only triggers a
fire-and-forget background profile refresh and never changes the resolved
state, so it is recorded but unused). -/
structure LoginEnvV1 where
  apiLogin : Except String (Option AuthUser)
  getSession : Except Unit (Option String)

/-- Variant-1 `login`: on a response with a user, cache and set the profile
(lines 200-202) and resolve `true`; on a response without a user (lines
203-208) or a thrown error (lines 223-229), null the user, remove the
`auth_user` cache and resolve `false`.  The `finally` block (lines 230-234)
drops `isLoading`.  The background `fetchUserProfile` kicked off on lines
210-219 runs after `login` has resolved and is modelled separately by
`fetchUserProfileV1`. -/
def loginV1 (st : AuthState) (env : LoginEnvV1) : AuthState × Bool :=
  match env.apiLogin with
  | .error _ =>
    ({ st with
        user := none,
        localStorage := removeItem st.localStorage "auth_user",
        isLoading := false }, false)
  | .ok none =>
    ({ st with
        user := none,
        localStorage := removeItem st.localStorage "auth_user",
        isLoading := false }, false)
  | .ok (some u) =>
    ({ st with
        user := some u,
        localStorage := setItem st.localStorage "auth_user" (.userJson u),
        isLoading := false }, true)

/- ### login (third variant, lines 948-994) -/

/-- External calls of the third-variant `login`.  `apiLogin` resolves to
`none` when the response is falsy, otherwise to the optional
`user` and `session` fields of the response; `setSession` is the best-effort
`supabase.auth.setSession` attempt (warn-only either way, lines 963-973). -/
structure LoginEnvV3 where
  apiLogin : Except String (Option (Option AuthUser × Option Session))
  setSession : Except Unit Unit

/-- Third-variant `login`: returns no boolean; its `catch` clears the user
and the cached profile and then RE-THROWS the backend error (lines 985-993).
The result component records how the returned promise settles: `.ok ()` for a
normal resolution (with no value), `.error m` for a rejection with message
`m`. -/
def loginV3 (st : AuthState) (env : LoginEnvV3) : AuthState × Except String Unit :=
  match env.apiLogin with
  | .error m =>
    ({ st with
        user := none,
        localStorage := removeItem st.localStorage "auth_user",
        isLoading := false }, .error m)
  | .ok none =>
    ({ st with
        user := none,
        localStorage := removeItem st.localStorage "auth_user",
        isLoading := false }, .ok ())
  | .ok (some (userOpt, sessionOpt)) =>
    match userOpt, sessionOpt with
    | none, none =>
      ({ st with
          user := none,
          localStorage := removeItem st.localStorage "auth_user",
          isLoading := false }, .ok ())
    | some u, _ =>
      let _sessionOutcome := if sessionOpt.isSome then some env.setSession else none
      ({ st with
          user := some u,
          localStorage := setItem st.localStorage "auth_user" (.userJson u),
          isLoading := false }, .ok ())
    | none, some _ =>
      let _sessionOutcome := env.setSession
      ({ st with
          user := none,
          localStorage := removeItem st.localStorage "auth_user",
          isLoading := false }, .ok ())

/- ### register (variant 1, lines 152-186; identical in all variants) -/

/-- The backend registration response `{user?, session?}`. -/
structure RegisterResponse where
  user : Option AuthUser
  session : Option Session

/-- External calls of `register`: `apiRegister` is `apiClient.register(data)`
(`.error m` = rejected with message `m`); `setSession` is the outcome of the
best-effort `supabase.auth.setSession(response.session)` attempted only when
a session is present (`.error ()` covers both a returned `sessionError` and a
thrown one — each is warn-only, lines 160-169). -/
structure RegisterEnv where
  apiRegister : Except String RegisterResponse
  setSession : Except Unit Unit

/-- `register`: rethrows a backend failure (lines 178-182); otherwise installs
the session best-effort, then caches and sets the returned profile when one is
present (lines 171-175); `finally` drops `isLoading`. -/
def register (st : AuthState) (env : RegisterEnv) : AuthState × Except String Unit :=
  match env.apiRegister with
  | .error m => ({ st with isLoading := false }, .error m)
  | .ok resp =>
    let _sessionOutcome := if resp.session.isSome then some env.setSession else none
    match resp.user with
    | some u =>
      ({ st with
          user := some u,
          localStorage := setItem st.localStorage "auth_user" (.userJson u),
          isLoading := false }, .ok ())
    | none => ({ st with isLoading := false }, .ok ())

/- ### fetchUserProfile (variant 1, lines 100-150; second variant, lines 483-533) -/

/-- The authenticated user returned by `supabase.auth.getUser(token)`. -/
structure SupaUser where
  id : String
  email : String
  metaName : Option String := none
deriving DecidableEq, Repr

/-- Outcomes of the external calls inside `fetchUserProfile`:
`getUser` is `supabase.auth.getUser(token)` (`.error` = rejected, `.ok none` =
no user in the response); `selectSingle` is the users-table select-by-id
single-row query (`.error` = the awaited promise rejected, `.ok none` =
resolved with `error || !profile`, `.ok (some p)` = resolved with row `p`);
`insertSingle` is the `insert(…).select().single()` fallback, read the same
way. -/
structure FetchEnv where
  getUser : Except Unit (Option SupaUser)
  selectSingle : Except Unit (Option AuthUser)
  insertSingle : Except Unit (Option AuthUser)

/-- Variant-1 `fetchUserProfile`: looks the profile row up by the session
id of the session user, creating it if absent; on success caches and sets the profile
(lines 133-134, 137-138); every failure path merely warns and leaves the
existing user state untouched (lines 128-131, 140-143, 144-146); `finally`
drops `isLoading` (lines 147-149). -/
def fetchUserProfileV1 (st : AuthState) (env : FetchEnv) : AuthState :=
  match env.getUser with
  | .error _ => { st with isLoading := false }
  | .ok none => { st with isLoading := false }
  | .ok (some _authUser) =>
    match env.selectSingle with
    | .error _ => { st with isLoading := false }
    | .ok (some profile) =>
      { st with
          user := some profile,
          localStorage := setItem st.localStorage "auth_user" (.userJson profile),
          isLoading := false }
    | .ok none =>
      match env.insertSingle with
      | .error _ => { st with isLoading := false }
      | .ok none => { st with isLoading := false }
      | .ok (some newProfile) =>
        { st with
            user := some newProfile,
            localStorage := setItem st.localStorage "auth_user" (.userJson newProfile),
            isLoading := false }

/-- Second-variant `fetchUserProfile`: same lookup, but every failure path
CLEARS the in-memory user — a thrown/network error hits the `catch` that does
`setUser(null)` (lines 528-532), a missing auth user does so too (lines
524-527), and a failed insert does as well (lines 511-514). -/
def fetchUserProfileV2 (st : AuthState) (env : FetchEnv) : AuthState :=
  match env.getUser with
  | .error _ => { st with user := none }
  | .ok none => { st with user := none }
  | .ok (some _authUser) =>
    match env.selectSingle with
    | .error _ => { st with user := none }
    | .ok (some profile) =>
      { st with
          user := some profile,
          localStorage := setItem st.localStorage "auth_user" (.userJson profile) }
    | .ok none =>
      match env.insertSingle with
      | .error _ => { st with user := none }
      | .ok none => { st with user := none }
      | .ok (some newProfile) =>
        { st with
            user := some newProfile,
            localStorage := setItem st.localStorage "auth_user" (.userJson newProfile) }

/- ### refreshUser (variant 1, lines 350-370; second variant, lines 732-752) -/

/-- Outcomes of the external calls of `refreshUser`: `getSession` is
`supabase.auth.getSession()` (`.error` = rejected, `.ok (some t)` = a session
with access token `t`, `.ok none` = no session); `fetch` drives the
`fetchUserProfile` call made when a token exists. -/
structure RefreshEnv where
  getSession : Except Unit (Option String)
  fetch : FetchEnv

/-- Variant-1 `refreshUser`: with a session, defer to `fetchUserProfileV1`;
with no session, restore the in-memory user from the `auth_user` cache if one
is stored and no user is set (removing the entry when its parse fails, lines
356-364); a thrown session check leaves state untouched (lines 366-369). -/
def refreshUserV1 (st : AuthState) (env : RefreshEnv) : AuthState :=
  match env.getSession with
  | .error _ => st
  | .ok (some _token) => fetchUserProfileV1 st env.fetch
  | .ok none =>
    match getItem st.localStorage "auth_user", st.user with
    | some (.userJson u), none => { st with user := some u }
    | some .blob, none => { st with localStorage := removeItem st.localStorage "auth_user" }
    | _, _ => st

/-- Second-variant `refreshUser` (lines 732-752): textually the same driver,
but it calls the second-variant `fetchUserProfile`. -/
def refreshUserV2 (st : AuthState) (env : RefreshEnv) : AuthState :=
  match env.getSession with
  | .error _ => st
  | .ok (some _token) => fetchUserProfileV2 st env.fetch
  | .ok none =>
    match getItem st.localStorage "auth_user", st.user with
    | some (.userJson u), none => { st with user := some u }
    | some .blob, none => { st with localStorage := removeItem st.localStorage "auth_user" }
    | _, _ => st

/- ### logout (variant 1, lines 241-317; third variant, lines 996-1039) -/

/-- Variant-1 `logout`, success path (lines 260-271): remove the `auth_user`
cache, null the user, purge every `sb-`-prefixed key from both storage areas,
then clear session storage entirely.  (The scheduled post-reload double clear
of lines 276-289 runs after `logout` returns and only removes further.) -/
def logoutV1Success (st : AuthState) : AuthState :=
  let local1 := removeItem st.localStorage "auth_user"
  let local2 := removeSbKeys local1
  let sess1 := removeSbKeys st.sessionStorage
  let sess2 := clearStorage sess1
  { st with user := none, localStorage := local2, sessionStorage := sess2 }

/-- Variant-1 `logout`, error path (lines 290-316): the `catch` repeats the
same cleanup sequence (lines 293-301). -/
def logoutV1Error (st : AuthState) : AuthState :=
  let local1 := removeItem st.localStorage "auth_user"
  let local2 := removeSbKeys local1
  let sess1 := removeSbKeys st.sessionStorage
  let sess2 := clearStorage sess1
  { st with user := none, localStorage := local2, sessionStorage := sess2 }

/-- Third-variant `logout`, success path (lines 1014-1018): removes only
`auth_user` and `supabase.auth.token` from local storage and clears session
storage; `sb-`-prefixed local-storage keys are not touched. -/
def logoutV3Success (st : AuthState) : AuthState :=
  let local1 := removeItem st.localStorage "auth_user"
  let local2 := removeItem local1 "supabase.auth.token"
  let sess := clearStorage st.sessionStorage
  { st with user := none, localStorage := local2, sessionStorage := sess }

/-- Third-variant `logout`, error path (lines 1028-1037): the `catch` only
removes `auth_user` and nulls the user; neither storage area is otherwise
touched. -/
def logoutV3Error (st : AuthState) : AuthState :=
  { st with user := none, localStorage := removeItem st.localStorage "auth_user" }

/- ### updateUser (hook, lines 319-348, identical in all variants;
`ApiClient.updateUser`, `src/lib/api.ts` lines 345-362) -/

/-- A `Partial<AuthUser>` payload: every profile field optional. -/
structure PartialUser where
  id : Option String := none
  name : Option String := none
  email : Option String := none
  phone : Option String := none
  gender : Option Gender := none
  is_influencer : Option Bool := none
  avatar_url : Option String := none
  body_type : Option String := none
  style_preference : Option String := none
  color_season : Option String := none
  notes : Option String := none
  bio : Option String := none
  category : Option String := none
  created_at : Option String := none
  updated_at : Option String := none
deriving DecidableEq, Repr

/-- The update request sent to the authoritative `users` table: the fields in
the request body and the id used in the eq-id row filter. -/
structure DbUpdate where
  rowKey : String
  fields : PartialUser
deriving DecidableEq, Repr

/-- `{ ...data, updated_at: new Date().toISOString() }`: the spread payload
with the refreshed update timestamp (which overrides any caller-supplied
`updated_at`). -/
def sentFields (data : PartialUser) (now : String) : PartialUser :=
  { data with updated_at := some now }

/-- External inputs of the `updateUser` operation of the hook: `now` is
`new Date().toISOString()`; `dbResult` is the `.update(…).eq(…).select()
.single()` outcome (`.error ()` = the query resolved with `error` set, or the
await rejected — either way the outer `catch` rethrows and state is
untouched). -/
structure UpdateEnv where
  now : String
  dbResult : Except Unit AuthUser

/-- What one `updateUser` call did: the resulting store state, the update
request issued against the authoritative store (if the call got that far),
and whether the promise resolved or rejected with an error message. -/
structure UpdateOutcome where
  state : AuthState
  dbWrite : Option DbUpdate
  result : Except String Unit

/-- The `updateUser` operation of the hook: throws `No user logged in` without
touching anything when no user is set (line 321); otherwise updates the row
keyed by the id of the current user with the provided fields plus a fresh `updated_at`
(lines 323-331), rethrowing on a db error (lines 333-336, 342-347) and on
success replacing both the cache and the in-memory user with the full row
returned by the store (lines 338-340). -/
def updateUser (st : AuthState) (data : PartialUser) (env : UpdateEnv) : UpdateOutcome :=
  match st.user with
  | none => ⟨st, none, .error "No user logged in"⟩
  | some u =>
    let w : DbUpdate := ⟨u.id, sentFields data env.now⟩
    match env.dbResult with
    | .error _ => ⟨st, some w, .error "Failed to update profile"⟩
    | .ok updatedProfile =>
      ⟨{ st with
          user := some updatedProfile,
          localStorage := setItem st.localStorage "auth_user" (.userJson updatedProfile) },
       some w, .ok ()⟩

/-- External inputs of `ApiClient.updateUser`: `authGetUser` is
`sb.auth.getUser()` (`.error` = rejected or returned `userError`, `.ok none`
= no authenticated user, `.ok (some uid)` = authenticated user id `uid`);
`now` and `dbResult` as in `UpdateEnv`. -/
structure ApiUpdateEnv where
  authGetUser : Except Unit (Option String)
  now : String
  dbResult : Except Unit AuthUser

/-- `ApiClient.updateUser(_id, userData)` (api.ts lines 345-362): the `_id`
argument is ignored; the row key is always the id of the currently
authenticated user reported by the auth service. -/
def apiUpdateUser (_id : String) (userData : PartialUser) (env : ApiUpdateEnv) :
    Except String AuthUser × Option DbUpdate :=
  match env.authGetUser with
  | .error _ => (.error "auth error", none)
  | .ok none => (.error "Not authenticated", none)
  | .ok (some uid) =>
    let w : DbUpdate := ⟨uid, sentFields userData env.now⟩
    match env.dbResult with
    | .error _ => (.error "update error", some w)
    | .ok row => (.ok row, some w)

/- ### The mock image-upload search endpoint (`POST /image`, backend search
router).  Similarity scores are real numbers in the source (fixed literals for
the external mocks, `Math.random() * 0.3 + 0.7` per internal product); they
are modelled as rationals. -/

/-- The `source` discriminator of a search result. -/
inductive ResultSource where
  | internal
  | external
deriving DecidableEq, Repr

/-- A result entry of the search response. -/
structure SearchResult where
  id : String
  title : String
  price : Option String := none
  image : String
  source : ResultSource
  url : Option String := none
  similarity : Option ℚ := none
  description : Option String := none
  influencer : Option String := none
deriving DecidableEq, Repr

/-- A row of the internal `posts` query (`id, name, description, price,
media_urls, type` plus the joined author name). -/
structure Product where
  id : String
  name : String
  price : Option String := none
  media_urls : List String := []
  description : Option String := none
  authorName : Option String := none
deriving DecidableEq, Repr

/-- The body of the `200` response of the `/image` handler. -/
structure SearchResponse where
  success : Bool
  results : List SearchResult
  totalResults : Nat
  processingTime : Option String := none

/-- `similarity || 0`: the comparator treats a missing similarity as `0`. -/
def simOf (r : SearchResult) : ℚ := r.similarity.getD 0

/-- The sort order of `(a, b) => (b.similarity || 0) - (a.similarity || 0)`:
`a` precedes `b` when the similarity of `a` is at least that of `b`. -/
def simGE (a b : SearchResult) : Prop := simOf b ≤ simOf a

instance : DecidableRel simGE := fun a b => inferInstanceAs (Decidable (simOf b ≤ simOf a))

instance : IsTotal SearchResult simGE :=
  ⟨fun a b => (le_total (simOf a) (simOf b)).symm⟩

instance : IsTrans SearchResult simGE :=
  ⟨fun _ _ _ hab hbc => le_trans hbc hab⟩

/-- The two hard-coded mock external results (handler lines 69-90). -/
def externalResults : List SearchResult :=
  [{ id := "ext-1", title := "Similar Product - Amazon", price := some "Rs 15,999",
     image := "https://images.unsplash.com/photo-1484704849700", source := .external,
     url := some "https://amazon.in", similarity := some (92 / 100),
     description := some "Similar product found on Amazon" },
   { id := "ext-2", title := "Related Item - Flipkart", price := some "Rs 18,499",
     image := "https://images.unsplash.com/photo-1583394838336", source := .external,
     url := some "https://flipkart.com", similarity := some (87 / 100),
     description := some "Related product available on Flipkart" }]

/-- Formatting of one internal product (handler lines 92-101): `image` is the
first media URL or the empty string, `similarity` the mock random score
drawn for it. -/
def formatInternal (p : Product) (sim : ℚ) : SearchResult :=
  { id := p.id, title := p.name, price := p.price,
    image := p.media_urls.head?.getD "", source := .internal,
    similarity := some sim, description := p.description,
    influencer := p.authorName }

/-- `(internalProducts || []).map(...)`: the formatted internal results, with
`sims i` the `Math.random() * 0.3 + 0.7` score drawn for the `i`-th product
(a db error leaves `internalProducts` null, yielding `[]`). -/
def internalResultsOf (internalProducts : Option (List Product)) (sims : Nat → ℚ) :
    List SearchResult :=
  ((internalProducts.getD []).enum).map (fun ip => formatInternal ip.2 (sims ip.1))

/-- The successful-response computation of the `/image` handler (lines 103-111):
concatenate internal and external results, sort by descending similarity,
keep the top 20, and answer `{success: true, results, totalResults:
results.length, processingTime}`. -/
def imageSearchHandler (internalProducts : Option (List Product)) (sims : Nat → ℚ) :
    SearchResponse :=
  let allResults :=
    (List.insertionSort simGE (internalResultsOf internalProducts sims ++ externalResults)).take 20
  { success := true, results := allResults, totalResults := allResults.length,
    processingTime := some "1.2s" }

/- ### The cache coherence invariant and concrete sample data -/

/-- The profile-cache invariant of the store: whenever a user is set in
memory, the `auth_user` key of local storage holds the serialized copy of
that same profile. -/
def cacheInv (st : AuthState) : Bool :=
  match st.user with
  | none => true
  | some u => decide (getItem st.localStorage "auth_user" = some (.userJson u))

/-- A sample profile; its id, name, email and gender follow the registration
scenario of the spec. -/
def userA : AuthUser :=
  { id := "u1", name := "A", email := "a@x.com", gender := .male,
    is_influencer := false, created_at := "2025-01-01T00:00:00Z",
    updated_at := "2025-01-01T00:00:00Z" }

/-- The full row returned by the authoritative store for a bio update: the
requested `bio`, a trigger-set `notes` value and a fresh `updated_at`, none of
which a client-side merge of the payload into `userA` would produce. -/
def storeRow : AuthUser :=
  { userA with
      bio := some "x",
      notes := some "set by trigger",
      updated_at := "2025-02-02T00:00:00Z" }

/-- A state with `userA` authenticated and coherently cached. -/
def stAuthA : AuthState :=
  { user := some userA, isLoading := false,
    localStorage := [("auth_user", .userJson userA)], sessionStorage := [] }

/-- An unauthenticated state with empty storage. -/
def stEmpty : AuthState :=
  { user := none, isLoading := false, localStorage := [], sessionStorage := [] }

/-- An authenticated state that still holds hosted-session artifacts (keys
under the `sb-` prefix) in both storage areas. -/
def stSbKeys : AuthState :=
  { user := some userA, isLoading := false,
    localStorage := [("sb-access-token", .blob), ("auth_user", .userJson userA)],
    sessionStorage := [("sb-refresh-token", .blob)] }

/-- No in-memory user, but a parseable cached profile. -/
def stCachedOnly : AuthState :=
  { user := none, isLoading := false,
    localStorage := [("auth_user", .userJson userA)], sessionStorage := [] }

/-- No in-memory user and a corrupt cached profile. -/
def stCorruptCache : AuthState :=
  { user := none, isLoading := false,
    localStorage := [("auth_user", .blob)], sessionStorage := [] }

/-- A backend login rejection. -/
def envLoginV1Fail : LoginEnvV1 :=
  { apiLogin := .error "Invalid login credentials", getSession := .ok none }

/-- A backend login response carrying `userA`. -/
def envLoginV1Ok : LoginEnvV1 :=
  { apiLogin := .ok (some userA), getSession := .ok none }

/-- The same backend rejection, seen by the third-variant login. -/
def envLoginV3Fail : LoginEnvV3 :=
  { apiLogin := .error "Invalid login credentials", setSession := .ok () }

/-- Every hosted call down: the session check itself rejects. -/
def envRefreshDown : RefreshEnv :=
  { getSession := .error (),
    fetch := { getUser := .error (), selectSingle := .error (), insertSingle := .error () } }

/-- A session exists but the profile fetch rejects with a network error. -/
def envRefreshFetchDown : RefreshEnv :=
  { getSession := .ok (some "tok"),
    fetch := { getUser := .error (), selectSingle := .ok none, insertSingle := .ok none } }

/-- No hosted session at all. -/
def envRefreshNoSession : RefreshEnv :=
  { getSession := .ok none,
    fetch := { getUser := .ok none, selectSingle := .ok none, insertSingle := .ok none } }

/-- A registration response with a user but no session, per the spec
scenario. -/
def envRegisterNoSession : RegisterEnv :=
  { apiRegister := .ok { user := some userA, session := none }, setSession := .ok () }

/-- A successful profile fetch environment resolving to `userA`. -/
def envFetchOkA : FetchEnv :=
  { getUser := .ok (some { id := "u1", email := "a@x.com" }),
    selectSingle := .ok (some userA), insertSingle := .ok none }

/-- The partial payload of the spec example: just a bio. -/
def payloadBio : PartialUser := { bio := some "x" }

/-- A successful authoritative update resolving to `storeRow`. -/
def envUpdateOk : UpdateEnv :=
  { now := "2025-02-02T00:00:00Z", dbResult := .ok storeRow }

/-- A successful `ApiClient.updateUser` environment: the auth service reports
user id `u1` and the row update resolves to `storeRow`. -/
def envApiUpdateOk : ApiUpdateEnv :=
  { authGetUser := .ok (some "u1"), now := "2025-02-02T00:00:00Z",
    dbResult := .ok storeRow }

/- ### Basic storage lemmas -/

theorem getItem_removeItem_self (s : Storage) (k : String) :
    getItem (removeItem s k) k = none := by
  induction s with
  | nil => rfl
  | cons kv rest ih =>
    by_cases h : kv.1 = k
    · simpa [removeItem, List.filter, h] using ih
    · simpa [removeItem, List.filter, h, getItem] using ih

theorem getItem_setItem_self (s : Storage) (k : String) (v : StorageVal) :
    getItem (setItem s k v) k = some v := by
  simp [setItem, getItem]

theorem getItem_eq_none_of_filter (s : Storage) (p : String × StorageVal → Bool)
    (k : String) (h : getItem s k = none) : getItem (s.filter p) k = none := by
  induction s with
  | nil => rfl
  | cons kv rest ih =>
    by_cases hk : kv.1 = k
    · simp [getItem, hk] at h
    · simp only [getItem, hk, if_false] at h
      by_cases hp : p kv
      · simpa [List.filter, hp, getItem, hk] using ih h
      · simpa [List.filter, hp] using ih h

theorem hasSbKey_removeSbKeys (s : Storage) : hasSbKey (removeSbKeys s) = false := by
  induction s with
  | nil => rfl
  | cons kv rest ih =>
    by_cases h : startsWithSb kv.1.data
    · simpa [removeSbKeys, List.filter, h] using ih
    · simp [removeSbKeys, List.filter, h, hasSbKey, List.any] at ih ⊢

/- ### Login promise machine lemmas -/

theorem loginCalls_pending (m : LoginMachine) (p : Nat) (h : m.ref = some p) :
    ∀ n, loginCalls m n = (m, List.replicate n p) := by
  intro n
  induction n with
  | zero => rfl
  | succ k ih => simp [loginCalls, loginCall, h, ih, List.replicate_succ]

/- ### Claim theorems -/

/-- C1: in every sequence where a first `login` call is pending and `n`
further `login` calls arrive before it settles, exactly one network login
request is issued, every concurrent caller receives exactly the promise
handed to the first caller (hence observes the same resolved boolean), and
the cached in-flight promise is cleared when it settles. -/
theorem login_inflight_promise_shared (n : Nat) :
    (loginCalls (loginCall LoginMachine.init).1 n).1.requests = 1 ∧
    (loginCalls (loginCall LoginMachine.init).1 n).2 =
      List.replicate n (loginCall LoginMachine.init).2 ∧
    (loginSettle (loginCalls (loginCall LoginMachine.init).1 n).1).ref = none := by
  have h1 : loginCall LoginMachine.init = (⟨some 0, 1, 1⟩, 0) := rfl
  have h2 := loginCalls_pending (⟨some 0, 1, 1⟩ : LoginMachine) 0 rfl n
  rw [h1]
  simp [h2, loginSettle]

/-- C2 counterexample: the third-variant `login` does reject with an
exception.  On a backend rejection its `catch` block rethrows, so the login
promise settles as an error instead of resolving to a boolean. -/
theorem loginV3_rejects_on_backend_error :
    (loginV3 stAuthA envLoginV3Fail).2 = .error "Invalid login credentials" := rfl

/-- C2 amended: the first-variant `login` resolves to a boolean and never
rejects (its catch-all returns `false`), and whenever it resolves `false` the
in-memory user is `none` and the `auth_user` cache entry has been removed at
return time.  The third-variant `login` resolves to no boolean and rethrows
backend errors, though it too sets the user to `none` and removes the cached
profile before rethrowing. -/
theorem login_false_clears_state (st : AuthState) (env1 : LoginEnvV1)
    (st3 : AuthState) (env3 : LoginEnvV3) :
    ((loginV1 st env1).2 = false →
      (loginV1 st env1).1.user = none ∧
      getItem (loginV1 st env1).1.localStorage "auth_user" = none) ∧
    (∀ m, (loginV3 st3 env3).2 = .error m →
      (loginV3 st3 env3).1.user = none ∧
      getItem (loginV3 st3 env3).1.localStorage "auth_user" = none) := by
  constructor
  · intro hfalse
    cases henv : env1.apiLogin with
    | error m => simp [loginV1, henv, getItem_removeItem_self]
    | ok uo =>
      cases uo with
      | none => simp [loginV1, henv, getItem_removeItem_self]
      | some u => simp [loginV1, henv] at hfalse
  · intro m herr
    cases henv : env3.apiLogin with
    | error m' => simp [loginV3, henv, getItem_removeItem_self]
    | ok ro =>
      cases ro with
      | none => simp [loginV3, henv] at herr
      | some r =>
        obtain ⟨uo, so⟩ := r
        cases uo with
        | some u => simp [loginV3, henv] at herr
        | none =>
          cases so with
          | none => simp [loginV3, henv] at herr
          | some s => simp [loginV3, henv] at herr

/-- C2 witness: a concrete failed first-variant login leaves no user and no
cached profile, and a concrete rejected third-variant login likewise clears
both before rethrowing. -/
theorem login_false_clears_state_witness :
    (loginV1 stAuthA envLoginV1Fail).1.user = none ∧
    getItem (loginV1 stAuthA envLoginV1Fail).1.localStorage "auth_user" = none ∧
    (loginV3 stAuthA envLoginV3Fail).1.user = none ∧
    getItem (loginV3 stAuthA envLoginV3Fail).1.localStorage "auth_user" = none := by
  have h := login_false_clears_state stAuthA envLoginV1Fail stAuthA envLoginV3Fail
  have h1 := h.1 rfl
  have h2 := h.2 "Invalid login credentials" rfl
  exact ⟨h1.1, h1.2, h2.1, h2.2⟩

/-- C3: the cache coherence invariant — a non-null in-memory user implies the
`auth_user` key holds the serialized copy of the same profile — is preserved
by every first-variant operation that sets the user (`login`, `register`,
`fetchUserProfile`, `updateUser`), because each of them writes the storage
copy and the memory copy together; moreover a `login` that resolves `true`
leaves the store authenticated with exactly the profile of the backend
response, serialized under `auth_user`. -/
theorem cache_invariant_preserved (st : AuthState) (h : cacheInv st = true) :
    (∀ env : LoginEnvV1, cacheInv (loginV1 st env).1 = true) ∧
    (∀ env : RegisterEnv, cacheInv (register st env).1 = true) ∧
    (∀ env : FetchEnv, cacheInv (fetchUserProfileV1 st env) = true) ∧
    (∀ data env, cacheInv (updateUser st data env).state = true) ∧
    (∀ env : LoginEnvV1, ∀ u, env.apiLogin = .ok (some u) →
      (loginV1 st env).2 = true ∧
      isAuthenticated (loginV1 st env).1 = true ∧
      (loginV1 st env).1.user = some u ∧
      getItem (loginV1 st env).1.localStorage "auth_user" = some (.userJson u)) := by
  refine ⟨fun env => ?_, fun env => ?_, fun env => ?_, fun data env => ?_,
    fun env u henv => ?_⟩
  · cases henv : env.apiLogin with
    | error m => simp [loginV1, henv, cacheInv]
    | ok uo =>
      cases uo with
      | none => simp [loginV1, henv, cacheInv]
      | some u => simp [loginV1, henv, cacheInv, getItem_setItem_self]
  · cases henv : env.apiRegister with
    | error m => simpa [register, henv, cacheInv] using h
    | ok resp =>
      cases hu : resp.user with
      | none => simpa [register, henv, hu, cacheInv] using h
      | some u => simp [register, henv, hu, cacheInv, getItem_setItem_self]
  · cases hg : env.getUser with
    | error e => simpa [fetchUserProfileV1, hg, cacheInv] using h
    | ok ao =>
      cases ao with
      | none => simpa [fetchUserProfileV1, hg, cacheInv] using h
      | some au =>
        cases hs : env.selectSingle with
        | error e => simpa [fetchUserProfileV1, hg, hs, cacheInv] using h
        | ok po =>
          cases po with
          | some profile =>
            simp [fetchUserProfileV1, hg, hs, cacheInv, getItem_setItem_self]
          | none =>
            cases hi : env.insertSingle with
            | error e => simpa [fetchUserProfileV1, hg, hs, hi, cacheInv] using h
            | ok no =>
              cases no with
              | none => simpa [fetchUserProfileV1, hg, hs, hi, cacheInv] using h
              | some np =>
                simp [fetchUserProfileV1, hg, hs, hi, cacheInv, getItem_setItem_self]
  · cases hu : st.user with
    | none => simp [updateUser, hu, cacheInv]
    | some u =>
      cases hd : env.dbResult with
      | error e => simpa [updateUser, hu, hd, cacheInv] using h
      | ok p => simp [updateUser, hu, hd, cacheInv, getItem_setItem_self]
  · simp [loginV1, henv, isAuthenticated, getItem_setItem_self]

/-- C3 witness: starting from a coherent authenticated state, the concrete
successful login, registration, profile fetch and profile update all preserve
the invariant, and the concrete successful login stores exactly the profile
it sets in memory. -/
theorem cache_invariant_preserved_witness :
    cacheInv (loginV1 stAuthA envLoginV1Ok).1 = true ∧
    cacheInv (register stAuthA envRegisterNoSession).1 = true ∧
    cacheInv (fetchUserProfileV1 stAuthA envFetchOkA) = true ∧
    cacheInv (updateUser stAuthA payloadBio envUpdateOk).state = true ∧
    (loginV1 stAuthA envLoginV1Ok).2 = true ∧
    getItem (loginV1 stAuthA envLoginV1Ok).1.localStorage "auth_user" =
      some (.userJson userA) := by
  have h := cache_invariant_preserved stAuthA (by decide)
  have h5 := h.2.2.2.2 envLoginV1Ok userA rfl
  exact ⟨h.1 envLoginV1Ok, h.2.1 envRegisterNoSession, h.2.2.1 envFetchOkA,
    h.2.2.2.1 payloadBio envUpdateOk, h5.1, h5.2.2.2⟩

/-- C4 counterexample: the third-variant `logout` (even on its success path)
leaves a key under the recognized `sb-` hosted-session prefix in local
persistent storage, because it only removes `auth_user` and
`supabase.auth.token` there. -/
theorem logoutV3_leaves_sb_keys :
    hasSbKey (logoutV3Success stSbKeys).localStorage = true := by decide

/-- C4 amended: after the first-variant `logout` — on both its success path
and its error path — no `sb-`-prefixed key remains in local or session
storage, the `auth_user` entry is removed, the user is `none` and
`isAuthenticated` is false.  The third-variant `logout` also nulls the user
and removes `auth_user` on both paths and clears session storage on its
success path, but does not purge `sb-`-prefixed keys from local storage, and
its error path leaves session storage untouched. -/
theorem logout_cleanup_by_variant (st : AuthState) :
    (hasSbKey (logoutV1Success st).localStorage = false ∧
     hasSbKey (logoutV1Success st).sessionStorage = false ∧
     getItem (logoutV1Success st).localStorage "auth_user" = none ∧
     (logoutV1Success st).user = none ∧
     isAuthenticated (logoutV1Success st) = false) ∧
    (hasSbKey (logoutV1Error st).localStorage = false ∧
     hasSbKey (logoutV1Error st).sessionStorage = false ∧
     getItem (logoutV1Error st).localStorage "auth_user" = none ∧
     (logoutV1Error st).user = none ∧
     isAuthenticated (logoutV1Error st) = false) ∧
    ((logoutV3Success st).user = none ∧
     getItem (logoutV3Success st).localStorage "auth_user" = none ∧
     (logoutV3Success st).sessionStorage = [] ∧
     isAuthenticated (logoutV3Success st) = false) ∧
    ((logoutV3Error st).user = none ∧
     getItem (logoutV3Error st).localStorage "auth_user" = none ∧
     (logoutV3Error st).sessionStorage = st.sessionStorage ∧
     isAuthenticated (logoutV3Error st) = false) := by
  refine ⟨⟨?_, ?_, ?_, rfl, rfl⟩, ⟨?_, ?_, ?_, rfl, rfl⟩, ⟨rfl, ?_, rfl, rfl⟩,
    ⟨rfl, ?_, rfl, rfl⟩⟩
  · exact hasSbKey_removeSbKeys _
  · rfl
  · exact getItem_eq_none_of_filter _ _ _ (getItem_removeItem_self _ _)
  · exact hasSbKey_removeSbKeys _
  · rfl
  · exact getItem_eq_none_of_filter _ _ _ (getItem_removeItem_self _ _)
  · exact getItem_eq_none_of_filter _ _ _ (getItem_removeItem_self _ _)
  · exact getItem_removeItem_self _ _

/-- C5 counterexample: in the second variant, a hosted-service failure DOES
clear an already-present in-memory user.  With `userA` authenticated in
memory, a `refreshUser` whose session check succeeds but whose subsequent
profile fetch rejects with a network error (the cited `catch` that runs
`setUser(null)`) leaves `isAuthenticated` false. -/
theorem refreshUserV2_clears_user_on_fetch_error :
    isAuthenticated stAuthA = true ∧
    isAuthenticated (refreshUserV2 stAuthA envRefreshFetchDown) = false := by decide

/-- C5 amended: in the first variant the claim holds — no environment
whatsoever can clear an already-present in-memory user through `refreshUser`
(`isAuthenticated` stays true); if the session check itself rejects, the
state is exactly unchanged, and if the session exists but the profile fetch
rejects, the in-memory user is exactly unchanged.  The second variant clears
the user when its profile fetch fails (see the counterexample). -/
theorem refreshUserV1_keeps_user_on_failure (st : AuthState) (env : RefreshEnv)
    (u : AuthUser) (h : st.user = some u) :
    isAuthenticated (refreshUserV1 st env) = true ∧
    (env.getSession = .error () → refreshUserV1 st env = st) ∧
    (∀ t, env.getSession = .ok (some t) → env.fetch.getUser = .error () →
      (refreshUserV1 st env).user = some u) := by
  refine ⟨?_, fun hs => ?_, fun t hs hg => ?_⟩
  · cases hs : env.getSession with
    | error e => simp [refreshUserV1, hs, isAuthenticated, h]
    | ok so =>
      cases so with
      | some t =>
        simp only [refreshUserV1, hs]
        cases hg : env.fetch.getUser with
        | error e => simp [fetchUserProfileV1, hg, isAuthenticated, h]
        | ok ao =>
          cases ao with
          | none => simp [fetchUserProfileV1, hg, isAuthenticated, h]
          | some au =>
            cases hq : env.fetch.selectSingle with
            | error e => simp [fetchUserProfileV1, hg, hq, isAuthenticated, h]
            | ok po =>
              cases po with
              | some profile => simp [fetchUserProfileV1, hg, hq, isAuthenticated]
              | none =>
                cases hi : env.fetch.insertSingle with
                | error e => simp [fetchUserProfileV1, hg, hq, hi, isAuthenticated, h]
                | ok no =>
                  cases no with
                  | none => simp [fetchUserProfileV1, hg, hq, hi, isAuthenticated, h]
                  | some np => simp [fetchUserProfileV1, hg, hq, hi, isAuthenticated]
      | none => simp [refreshUserV1, hs, h, isAuthenticated]
  · simp [refreshUserV1, hs]
  · simp [refreshUserV1, hs, fetchUserProfileV1, hg, h]

/-- C5 witness: with `userA` authenticated, a concrete first-variant refresh
whose session check rejects leaves the state untouched, and a concrete one
whose profile fetch rejects keeps `userA` in memory. -/
theorem refreshUserV1_keeps_user_on_failure_witness :
    isAuthenticated (refreshUserV1 stAuthA envRefreshDown) = true ∧
    refreshUserV1 stAuthA envRefreshDown = stAuthA ∧
    (refreshUserV1 stAuthA envRefreshFetchDown).user = some userA := by
  have h1 := refreshUserV1_keeps_user_on_failure stAuthA envRefreshDown userA rfl
  have h2 := refreshUserV1_keeps_user_on_failure stAuthA envRefreshFetchDown userA rfl
  exact ⟨h1.1, h1.2.1 rfl, h2.2.2 "tok" rfl rfl⟩

/-- C6: calling `updateUser` with no authenticated user throws
`No user logged in` and performs no write at all: no update request reaches
the authoritative store, and the state (in-memory user, both storage areas,
loading flag) is returned unchanged. -/
theorem updateUser_requires_user (st : AuthState) (data : PartialUser)
    (env : UpdateEnv) (h : st.user = none) :
    updateUser st data env =
      { state := st, dbWrite := none, result := .error "No user logged in" } := by
  simp [updateUser, h]

/-- C6 witness: the concrete unauthenticated update fails with no write and
no state change. -/
theorem updateUser_requires_user_witness :
    updateUser stEmpty payloadBio envUpdateOk =
      { state := stEmpty, dbWrite := none, result := .error "No user logged in" } :=
  updateUser_requires_user stEmpty payloadBio envUpdateOk rfl

/-- C7: with a user authenticated, `updateUser` sends to the authoritative
store exactly the provided fields plus a refreshed update timestamp, keyed by
the id of the currently authenticated user; on success it resolves and
replaces both the in-memory user and the cached profile with the full record
the store returned (whatever that record is — not a client-side merge of the
payload into the old profile).  Moreover `ApiClient.updateUser` keys the
update by the id reported by the auth service no matter what caller-supplied
id argument it receives. -/
theorem updateUser_targeted_and_authoritative (st : AuthState) (u : AuthUser)
    (data : PartialUser) (env : UpdateEnv) (p : AuthUser)
    (hu : st.user = some u) (hdb : env.dbResult = .ok p) :
    (updateUser st data env).dbWrite = some ⟨u.id, sentFields data env.now⟩ ∧
    (updateUser st data env).state.user = some p ∧
    getItem (updateUser st data env).state.localStorage "auth_user" =
      some (.userJson p) ∧
    (updateUser st data env).result = .ok () ∧
    (∀ idArg userData aenv uid, aenv.authGetUser = .ok (some uid) →
      (apiUpdateUser idArg userData aenv).2 =
        some ⟨uid, sentFields userData aenv.now⟩) := by
  refine ⟨?_, ?_, ?_, ?_, fun idArg userData aenv uid ha => ?_⟩
  · simp [updateUser, hu, hdb]
  · simp [updateUser, hu, hdb]
  · simp [updateUser, hu, hdb, getItem_setItem_self]
  · simp [updateUser, hu, hdb]
  · cases hd : aenv.dbResult with
    | error e => simp [apiUpdateUser, ha, hd]
    | ok row => simp [apiUpdateUser, ha, hd]

/-- C7 witness: after the concrete `updateUser` of payload `{bio: x}` on the
authenticated `userA`, the write sent to the store carries the payload plus
the fresh timestamp and is keyed by the id of `userA`, and the in-memory
profile and the cache both equal `storeRow` — the full store response, whose
`bio` is `x` and whose trigger-set `notes` field no client-side merge would
produce; and the concrete `ApiClient.updateUser` called with a foreign id
argument still keys the row by the authenticated id `u1`. -/
theorem updateUser_targeted_and_authoritative_witness :
    (updateUser stAuthA payloadBio envUpdateOk).dbWrite =
      some ⟨userA.id, sentFields payloadBio envUpdateOk.now⟩ ∧
    (updateUser stAuthA payloadBio envUpdateOk).state.user = some storeRow ∧
    getItem (updateUser stAuthA payloadBio envUpdateOk).state.localStorage
      "auth_user" = some (.userJson storeRow) ∧
    (updateUser stAuthA payloadBio envUpdateOk).result = .ok () ∧
    (apiUpdateUser "someone-else" payloadBio envApiUpdateOk).2 =
      some ⟨"u1", sentFields payloadBio envApiUpdateOk.now⟩ := by
  have h := updateUser_targeted_and_authoritative stAuthA userA payloadBio
    envUpdateOk storeRow rfl rfl
  exact ⟨h.1, h.2.1, h.2.2.1, h.2.2.2.1,
    h.2.2.2.2 "someone-else" payloadBio envApiUpdateOk "u1" rfl⟩

/-- C8: when `refreshUser` (first variant) finds no hosted session while no
in-memory user is set and a cached profile entry exists, it restores the
in-memory user from the parsed cache without touching storage; and when the
parse of the cached entry fails, it removes the corrupt entry and the user
stays `none`. -/
theorem refreshUserV1_restores_from_cache (st : AuthState) (env : RefreshEnv)
    (e : StorageVal) (hu : st.user = none) (hs : env.getSession = .ok none)
    (he : getItem st.localStorage "auth_user" = some e) :
    match e with
    | .userJson u =>
        (refreshUserV1 st env).user = some u ∧
        (refreshUserV1 st env).localStorage = st.localStorage
    | .blob =>
        (refreshUserV1 st env).user = none ∧
        getItem (refreshUserV1 st env).localStorage "auth_user" = none := by
  cases e with
  | userJson u => simp [refreshUserV1, hs, he, hu]
  | blob => simp [refreshUserV1, hs, he, hu, getItem_removeItem_self]

/-- C8 witness: a concrete sessionless refresh restores `userA` from the
cache leaving storage unchanged, and a concrete sessionless refresh over a
corrupt cache leaves the user `none` and deletes the entry. -/
theorem refreshUserV1_restores_from_cache_witness :
    (refreshUserV1 stCachedOnly envRefreshNoSession).user = some userA ∧
    (refreshUserV1 stCachedOnly envRefreshNoSession).localStorage =
      stCachedOnly.localStorage ∧
    (refreshUserV1 stCorruptCache envRefreshNoSession).user = none ∧
    getItem (refreshUserV1 stCorruptCache envRefreshNoSession).localStorage
      "auth_user" = none := by
  have h1 := refreshUserV1_restores_from_cache stCachedOnly envRefreshNoSession
    (.userJson userA) rfl rfl rfl
  have h2 := refreshUserV1_restores_from_cache stCorruptCache envRefreshNoSession
    .blob rfl rfl rfl
  exact ⟨h1.1, h1.2, h2.1, h2.2⟩

/-- C9: when the backend registration response carries a user but no session
— or a session whose installation fails — `register` still caches the
returned profile, sets it in memory, leaves the store authenticated and
resolves without throwing: the session installation outcome never affects
the result. -/
theorem register_tolerates_missing_session (st : AuthState) (env : RegisterEnv)
    (resp : RegisterResponse) (u : AuthUser) (hr : env.apiRegister = .ok resp)
    (hu : resp.user = some u)
    (_hs : resp.session = none ∨ env.setSession = .error ()) :
    (register st env).2 = .ok () ∧
    (register st env).1.user = some u ∧
    getItem (register st env).1.localStorage "auth_user" = some (.userJson u) ∧
    isAuthenticated (register st env).1 = true := by
  refine ⟨?_, ?_, ?_, ?_⟩ <;>
    simp [register, hr, hu, isAuthenticated, getItem_setItem_self]

/-- C9 witness: the concrete registration of the spec scenario — a stub
backend answering with user id `u1` and no session — ends authenticated as
`userA` (whose id is `u1`), with the profile cached, and resolves normally. -/
theorem register_tolerates_missing_session_witness :
    (register stEmpty envRegisterNoSession).2 = .ok () ∧
    (register stEmpty envRegisterNoSession).1.user = some userA ∧
    getItem (register stEmpty envRegisterNoSession).1.localStorage "auth_user" =
      some (.userJson userA) ∧
    isAuthenticated (register stEmpty envRegisterNoSession).1 = true ∧
    userA.id = "u1" := by
  have h := register_tolerates_missing_session stEmpty envRegisterNoSession
    { user := some userA, session := none } userA rfl rfl (Or.inl rfl)
  exact ⟨h.1, h.2.1, h.2.2.1, h.2.2.2, rfl⟩

/-- C10: every successful response of the mock image-upload search endpoint
has `success` true, a `totalResults` equal to the length of the returned
list, at most 20 entries, and a results list sorted in non-increasing order
of similarity (missing similarity read as 0) that is the 20-entry prefix of
a sorted permutation of the concatenation of internal and external
results. -/
theorem image_search_success_shape (internalProducts : Option (List Product))
    (sims : Nat → ℚ) :
    (imageSearchHandler internalProducts sims).success = true ∧
    (imageSearchHandler internalProducts sims).totalResults =
      (imageSearchHandler internalProducts sims).results.length ∧
    (imageSearchHandler internalProducts sims).results.length ≤ 20 ∧
    List.Sorted simGE (imageSearchHandler internalProducts sims).results ∧
    ∃ l, l.Perm (internalResultsOf internalProducts sims ++ externalResults) ∧
      List.Sorted simGE l ∧
      (imageSearchHandler internalProducts sims).results = l.take 20 := by
  refine ⟨rfl, rfl, ?_, ?_, ?_⟩
  · simp [imageSearchHandler, List.length_take]
  · exact (List.sorted_insertionSort simGE
      (internalResultsOf internalProducts sims ++ externalResults)).sublist
      (List.take_sublist 20 _)
  · exact ⟨List.insertionSort simGE
      (internalResultsOf internalProducts sims ++ externalResults),
      List.perm_insertionSort simGE _, List.sorted_insertionSort simGE _, rfl⟩

end InfluShop
